import Mathlib

/-!
Verification development for the `SceneManager` scene-rendering core
(`Source/SceneManager.cpp`).

The C++ code is shallowly embedded: the texture table and material list
become explicit state values, the shader-parameter sink becomes an ordered
list of named-uniform writes (most recent first), GL calls that matter to
the claims become an explicit call trace, and the straight-line body of
`RenderScene` becomes a literal list of operations that is folded through
the same facade functions the source calls.  Floating-point scene constants
are modelled as rationals (they are only stored and compared, never
computed with), and the model matrices are real matrices built with exact
trigonometric functions.
-/

/-- A 3-component vector of scene constants (models `glm::vec3` values as
they appear in the scene script; rationals, since the scene only stores
and forwards them). -/
structure Vec3 where
  x : ℚ
  y : ℚ
  z : ℚ
  deriving DecidableEq, Repr

/-- Models the C++ `OBJECT_MATERIAL` struct. -/
structure OBJECT_MATERIAL where
  diffuseColor : Vec3
  specularColor : Vec3
  shininess : ℚ
  tag : String
  deriving DecidableEq, Repr

/-- Models the `TEXTURE_INFO` entries of `m_textureIDs`: a tag string and a
GPU texture handle (`GLuint ID`, initialized to `-1` by the constructor). -/
structure TextureEntry where
  tag : String
  ID : Int
  deriving DecidableEq, Repr

/-- The texture-registry part of the `SceneManager` state: the fixed
16-entry array `m_textureIDs` together with the counter `m_loadedTextures`. -/
structure TexState where
  textureIDs : List TextureEntry
  loadedTextures : Nat
  deriving DecidableEq, Repr

/-- The state established by the `SceneManager` constructor: all 16 array
entries get tag `"/0"` and ID `-1`, and `m_loadedTextures = 0`. -/
def initialTexState : TexState :=
  { textureIDs :=
      [ { tag := "/0", ID := -1 }, { tag := "/0", ID := -1 }
      , { tag := "/0", ID := -1 }, { tag := "/0", ID := -1 }
      , { tag := "/0", ID := -1 }, { tag := "/0", ID := -1 }
      , { tag := "/0", ID := -1 }, { tag := "/0", ID := -1 }
      , { tag := "/0", ID := -1 }, { tag := "/0", ID := -1 }
      , { tag := "/0", ID := -1 }, { tag := "/0", ID := -1 }
      , { tag := "/0", ID := -1 }, { tag := "/0", ID := -1 }
      , { tag := "/0", ID := -1 }, { tag := "/0", ID := -1 } ],
    loadedTextures := 0 }

/-- Outcome of the external image decoder (`stbi_load`): failure, or raw
pixel data with a width, height and channel count. -/
inductive DecodeResult where
  | fail
  | ok (width height channels : Nat)
  deriving DecidableEq, Repr

/-- GL calls relevant to texture-resource lifetime: `glGenTextures(1, ...)`
(allocate a fresh texture name) and `glDeleteTextures` of a handle. -/
inductive GLCall where
  | genTextures (count : Nat)
  | deleteTextures (id : Int)
  deriving DecidableEq, Repr

/-- Models `SceneManager::CreateGLTexture`.  The external decode outcome and
the texture name produced by `glGenTextures` are parameters.  On a decode
failure, or when the channel count is neither 3 nor 4, it returns `false`
without touching the registry; otherwise it stores the new entry at index
`m_loadedTextures`, increments the counter, and returns `true`. -/
def CreateGLTexture (st : TexState) (newID : Int) (decoded : DecodeResult)
    (tag : String) : Bool × TexState :=
  match decoded with
  | DecodeResult.fail => (false, st)
  | DecodeResult.ok _ _ colorChannels =>
    if colorChannels = 3 ∨ colorChannels = 4 then
      (true,
        { textureIDs := st.textureIDs.set st.loadedTextures { tag := tag, ID := newID },
          loadedTextures := st.loadedTextures + 1 })
    else
      (false, st)

/-- Models `SceneManager::DestroyGLTextures`.  For each `i` below
`m_loadedTextures` the source executes `glGenTextures(1, &m_textureIDs[i].ID)`
(it generates a fresh texture name into the entry; it never calls
`glDeleteTextures`).  `fresh i` is the name generated at iteration `i`; the
second component is the trace of GL calls issued. -/
def DestroyGLTextures (st : TexState) (fresh : Nat → Int) : TexState × List GLCall :=
  ({ st with
      textureIDs :=
        st.textureIDs.mapIdx fun i e =>
          if i < st.loadedTextures then { e with ID := fresh i } else e },
   (List.range st.loadedTextures).map fun _ => GLCall.genTextures 1)

/-- The linear-search loop of `SceneManager::FindTextureSlot`, scanning the
entries at indices `0 ≤ index < m_loadedTextures` in order (the caller
passes that portion of the array as a list). -/
def findSlotAux : List TextureEntry → String → Nat → Int
  | [], _, _ => -1
  | e :: rest, tag, index =>
    if e.tag = tag then (index : Int) else findSlotAux rest tag (index + 1)

/-- Models `SceneManager::FindTextureSlot`: first-match linear search over
the loaded entries, returning the slot index, or `-1` if no tag matches. -/
def FindTextureSlot (st : TexState) (tag : String) : Int :=
  findSlotAux (st.textureIDs.take st.loadedTextures) tag 0

/-- The linear-search loop of `SceneManager::FindMaterial`: on the first
entry whose tag matches, the three value fields (but not the tag) of the
caller-supplied output struct are overwritten; otherwise it is returned
unchanged. -/
def findMaterialAux : List OBJECT_MATERIAL → String → OBJECT_MATERIAL → OBJECT_MATERIAL
  | [], _, material => material
  | m :: rest, tag, material =>
    if m.tag = tag then
      { material with
          diffuseColor := m.diffuseColor,
          specularColor := m.specularColor,
          shininess := m.shininess }
    else
      findMaterialAux rest tag material

/-- Models `SceneManager::FindMaterial`: returns `false` (output struct
untouched) when the material list is empty, and otherwise returns `true`
together with the output struct after the search loop — `true` is returned
whether or not any tag matched. -/
def FindMaterial (mats : List OBJECT_MATERIAL) (tag : String)
    (material : OBJECT_MATERIAL) : Bool × OBJECT_MATERIAL :=
  if mats.length = 0 then
    (false, material)
  else
    (true, findMaterialAux mats tag material)

/-- 4×4 real matrices, the type of the composed model transform. -/
abbrev Mat4 := Matrix (Fin 4) (Fin 4) ℝ

/-- `glm::radians`: degrees to radians. -/
noncomputable def radians (degrees : ℝ) : ℝ := degrees * (Real.pi / 180)

/-- `glm::scale(vec3(sx, sy, sz))`. -/
noncomputable def glmScale (sx sy sz : ℝ) : Mat4 :=
  Matrix.of
    ![![sx, 0, 0, 0],
      ![0, sy, 0, 0],
      ![0, 0, sz, 0],
      ![0, 0, 0, 1]]

/-- `glm::rotate(θ, vec3(1,0,0))`: rotation about the X axis. -/
noncomputable def glmRotateX (t : ℝ) : Mat4 :=
  Matrix.of
    ![![1, 0, 0, 0],
      ![0, Real.cos t, -Real.sin t, 0],
      ![0, Real.sin t, Real.cos t, 0],
      ![0, 0, 0, 1]]

/-- `glm::rotate(θ, vec3(0,1,0))`: rotation about the Y axis. -/
noncomputable def glmRotateY (t : ℝ) : Mat4 :=
  Matrix.of
    ![![Real.cos t, 0, Real.sin t, 0],
      ![0, 1, 0, 0],
      ![-Real.sin t, 0, Real.cos t, 0],
      ![0, 0, 0, 1]]

/-- `glm::rotate(θ, vec3(0,0,1))`: rotation about the Z axis. -/
noncomputable def glmRotateZ (t : ℝ) : Mat4 :=
  Matrix.of
    ![![Real.cos t, -Real.sin t, 0, 0],
      ![Real.sin t, Real.cos t, 0, 0],
      ![0, 0, 1, 0],
      ![0, 0, 0, 1]]

/-- `glm::translate(vec3(px, py, pz))`. -/
noncomputable def glmTranslate (px py pz : ℝ) : Mat4 :=
  Matrix.of
    ![![1, 0, 0, px],
      ![0, 1, 0, py],
      ![0, 0, 1, pz],
      ![0, 0, 0, 1]]

/-- The combined model matrix built by `SceneManager::SetTransformations`:
`translation * rotationZ * rotationY * rotationX * scale`, with every
rotation angle converted from degrees to radians. -/
noncomputable def modelMatrix (sx sy sz xdeg ydeg zdeg px py pz : ℝ) : Mat4 :=
  glmTranslate px py pz * glmRotateZ (radians zdeg) * glmRotateY (radians ydeg) *
    glmRotateX (radians xdeg) * glmScale sx sy sz

/-- A value written to the shader-parameter sink: bool, sampler index,
float, vec2, vec3, vec4, or a 4×4 matrix. -/
inductive UVal where
  | vb (b : Bool)
  | vi (n : Int)
  | vf (x : ℚ)
  | v2 (x y : ℚ)
  | v3 (x y z : ℚ)
  | v4 (x y z w : ℚ)
  | vmat (m : Mat4)

/-- The shader-parameter sink: the ordered log of named-uniform writes,
most recent write first.  The value a draw call would observe for a name
is the first (i.e. latest) write of that name. -/
abbrev Sink := List (String × UVal)

/-- One named-uniform write to the sink. -/
def sinkSet (s : Sink) (key : String) (v : UVal) : Sink := (key, v) :: s

/-- The value the sink currently holds for a uniform name (the latest
write of that name), if any. -/
def lookupSink (s : Sink) (key : String) : Option UVal :=
  (s.find? fun e => e.1 == key).map fun e => e.2

/-- Pack a `Vec3` of scene constants as a sink vec3 value. -/
def uvalOfVec3 (v : Vec3) : UVal := UVal.v3 v.x v.y v.z

/-- Models `SceneManager::SetTransformations` (the shader manager is
non-null for the running scene): builds the combined model matrix and
forwards it to the sink under the uniform name `"model"`. -/
noncomputable def SetTransformations (s : Sink) (sx sy sz xdeg ydeg zdeg px py pz : ℝ) : Sink :=
  sinkSet s "model" (UVal.vmat (modelMatrix sx sy sz xdeg ydeg zdeg px py pz))

/-- Models `SceneManager::SetShaderColor`: turns the `"bUseTexture"` flag
off and forwards the RGBA color as `"objectColor"`. -/
def SetShaderColor (s : Sink) (r g b a : ℚ) : Sink :=
  sinkSet (sinkSet s "bUseTexture" (UVal.vb false)) "objectColor" (UVal.v4 r g b a)

/-- Models `SceneManager::SetShaderTexture`: turns the `"bUseTexture"`
flag on and forwards the slot found by `FindTextureSlot` (possibly the
`-1` sentinel) as the sampler `"objectTexture"`. -/
def SetShaderTexture (tex : TexState) (s : Sink) (textureTag : String) : Sink :=
  sinkSet (sinkSet s "bUseTexture" (UVal.vb true)) "objectTexture"
    (UVal.vi (FindTextureSlot tex textureTag))

/-- Models `SceneManager::SetTextureUVScale`: forwards the tiling factors
as the vec2 uniform `"UVscale"`. -/
def SetTextureUVScale (s : Sink) (u v : ℚ) : Sink :=
  sinkSet s "UVscale" (UVal.v2 u v)

/-- The contents of the fresh stack-local `OBJECT_MATERIAL material;`
declared inside `SetShaderMaterial` (default-initialized in C++, so its
contents are not taken from the registry; modelled as zeroed with an empty
tag; `SetShaderMaterial` takes it as an explicit parameter `local0`). -/
def localDefault : OBJECT_MATERIAL :=
  { diffuseColor := { x := 0, y := 0, z := 0 },
    specularColor := { x := 0, y := 0, z := 0 },
    shininess := 0,
    tag := "" }

/-- Models `SceneManager::SetShaderMaterial`: when the material list is
non-empty it calls `FindMaterial` on a fresh local struct (`local0`), and
because `FindMaterial` then reports `true`, it always forwards the three
material uniforms — the found entry's values on a match, the untouched
local struct's contents otherwise.  With an empty list it does nothing. -/
def SetShaderMaterial (mats : List OBJECT_MATERIAL) (s : Sink)
    (materialTag : String) (local0 : OBJECT_MATERIAL) : Sink :=
  if 0 < mats.length then
    let r := FindMaterial mats materialTag local0
    if r.1 = true then
      sinkSet
        (sinkSet
          (sinkSet s "material.diffuseColor" (uvalOfVec3 r.2.diffuseColor))
          "material.specularColor" (uvalOfVec3 r.2.specularColor))
        "material.shininess" (UVal.vf r.2.shininess)
    else s
  else s

/-- Models `SceneManager::LoadSceneTextures`: five `CreateGLTexture` calls
with tags `"wood"`, `"ground"`, `"eraser"`, `"roof"`, `"nightsky"` in that
order (each returned bool is assigned to a local and ignored, as in the
source), followed by `BindGLTextures`, which only touches GPU texture-unit
state and not the registry.  The five external decode outcomes and the
five texture names produced by `glGenTextures` are parameters. -/
def LoadSceneTextures (st : TexState) (d1 d2 d3 d4 d5 : DecodeResult)
    (i1 i2 i3 i4 i5 : Int) : TexState :=
  let st1 := (CreateGLTexture st i1 d1 "wood").2
  let st2 := (CreateGLTexture st1 i2 d2 "ground").2
  let st3 := (CreateGLTexture st2 i3 d3 "eraser").2
  let st4 := (CreateGLTexture st3 i4 d4 "roof").2
  (CreateGLTexture st4 i5 d5 "nightsky").2

/-- Models `SceneManager::DefineObjectMaterials`: appends the `"metal"` and
`"wood"` materials to `m_objectMaterials`; the `"glass"` material is
constructed locally but — as in the source — never appended. -/
def DefineObjectMaterials (mats : List OBJECT_MATERIAL) : List OBJECT_MATERIAL :=
  let goldMaterial : OBJECT_MATERIAL :=
    { diffuseColor := { x := 0.4, y := 0.4, z := 0.4 },
      specularColor := { x := 0.7, y := 0.7, z := 0.6 },
      shininess := 52,
      tag := "metal" }
  let mats1 := mats ++ [goldMaterial]
  let woodMaterial : OBJECT_MATERIAL :=
    { diffuseColor := { x := 0.2, y := 0.2, z := 0.3 },
      specularColor := { x := 0, y := 0, z := 0 },
      shininess := 0.1,
      tag := "wood" }
  let mats2 := mats1 ++ [woodMaterial]
  let _glassMaterial : OBJECT_MATERIAL :=
    { diffuseColor := { x := 0.2, y := 0.2, z := 0.2 },
      specularColor := { x := 1, y := 1, z := 1 },
      shininess := 95,
      tag := "glass" }
  mats2

/-- The named-uniform writes issued by `SceneManager::SetupSceneLights`, in
source order: the lighting flag, a first directional-light definition, a
second directional-light definition to the same key names, and two point
lights. -/
def setupSceneLightsWrites : List (String × UVal) :=
  [ ("bUseLighting", UVal.vb true)
  , ("directionalLight.direction", UVal.v3 (-0.1) (-1) (-0.1))
  , ("directionalLight.ambient", UVal.v3 0.8 0.8 0.8)
  , ("directionalLight.diffuse", UVal.v3 1.5 1.5 1.5)
  , ("directionalLight.specular", UVal.v3 1.5 1.5 1.5)
  , ("directionalLight.bActive", UVal.vb true)
  , ("directionalLight.direction", UVal.v3 (-0.1) (-1) (-0.1))
  , ("directionalLight.ambient", UVal.v3 1.08 1.08 1.08)
  , ("directionalLight.diffuse", UVal.v3 2.25 2.25 2.25)
  , ("directionalLight.specular", UVal.v3 1.98 1.98 1.98)
  , ("directionalLight.bActive", UVal.vb true)
  , ("pointLights[1].position", UVal.v3 5 5 3)
  , ("pointLights[1].ambient", UVal.v3 0.08 0 0.12)
  , ("pointLights[1].diffuse", UVal.v3 0.5 0.1 0.7)
  , ("pointLights[1].specular", UVal.v3 0.7 0.3 0.9)
  , ("pointLights[1].bActive", UVal.vb true)
  , ("pointLights[2].position", UVal.v3 (-6) 5 2)
  , ("pointLights[2].ambient", UVal.v3 0 0.05 0.05)
  , ("pointLights[2].diffuse", UVal.v3 0.2 0.8 0.5)
  , ("pointLights[2].specular", UVal.v3 0.3 1 0.6)
  , ("pointLights[2].bActive", UVal.vb true) ]

/-- Models `SceneManager::SetupSceneLights`: pushes its writes to the sink
in source order. -/
def SetupSceneLights (s : Sink) : Sink :=
  setupSceneLightsWrites.foldl (fun t e => sinkSet t e.1 e.2) s

/-- The seven mesh kinds of the shape-mesh library. -/
inductive ShapeKind where
  | plane
  | cylinder
  | cone
  | box
  | sphere
  | pyramid3
  | taperedCylinder
  deriving DecidableEq, Repr

/-- One statement of the straight-line body of `SceneManager::RenderScene`:
a call to one of the transform/shading facade methods, or a mesh draw. -/
inductive RenderOp where
  | setTransformations (scaleXYZ : Vec3) (xdeg ydeg zdeg : ℚ) (positionXYZ : Vec3)
  | setShaderColor (r g b a : ℚ)
  | setShaderTexture (tag : String)
  | setTextureUVScale (u v : ℚ)
  | setShaderMaterial (tag : String)
  | draw (shape : ShapeKind)
  deriving DecidableEq, Repr

/-- The literal statement sequence of `SceneManager::RenderScene`
(constant-folding the local transform variables, which are assigned
immediately before each `SetTransformations` call). -/
def renderSceneOps : List RenderOp :=
  [ -- floor plane
    RenderOp.setTransformations { x := 35, y := 1, z := 15 } 0 0 0 { x := 0, y := 0, z := 0 }
  , RenderOp.setShaderMaterial "wood"
  , RenderOp.setShaderTexture "ground"
  , RenderOp.setTextureUVScale 2 2
  , RenderOp.draw ShapeKind.plane
    -- pencil shaft cylinder
  , RenderOp.setTransformations { x := 0.3, y := 3, z := 0.3 } 0 0 90 { x := 0.5, y := 1.5, z := 3.5 }
  , RenderOp.setShaderTexture "wood"
  , RenderOp.setTextureUVScale 0.5 0.5
  , RenderOp.setShaderMaterial "wood"
  , RenderOp.draw ShapeKind.cylinder
    -- vertical backdrop plane
  , RenderOp.setTransformations { x := 35, y := 15, z := 20 } (-90) 0 0 { x := 0, y := 19, z := -15 }
  , RenderOp.setShaderTexture "nightsky"
  , RenderOp.setTextureUVScale 1 1
  , RenderOp.draw ShapeKind.plane
    -- pencil tip cone
  , RenderOp.setTransformations { x := 0.3, y := 0.5, z := 0.3 } 0 0 90 { x := -2.5, y := 1.5, z := 3.5 }
  , RenderOp.setShaderMaterial "metal"
  , RenderOp.setTextureUVScale 1 1
  , RenderOp.setShaderColor 0.196 0.196 0.196 1
  , RenderOp.draw ShapeKind.cone
    -- pencil eraser cylinder
  , RenderOp.setTransformations { x := 0.3, y := 0.5, z := 0.3 } 0 0 90 { x := 1, y := 1.5, z := 3.5 }
  , RenderOp.setShaderTexture "eraser"
  , RenderOp.setTextureUVScale 0.5 0.5
  , RenderOp.draw ShapeKind.cylinder
    -- box (cube)
  , RenderOp.setTransformations { x := 2, y := 2, z := 2 } 0 66 0 { x := -7, y := 1, z := 0 }
  , RenderOp.setShaderColor 0.18 0.45 0.28 1
  , RenderOp.draw ShapeKind.box
    -- cone roof on top of the box
  , RenderOp.setTransformations { x := 1, y := 2, z := 1 } 0 0 0 { x := -7, y := 2, z := 0 }
  , RenderOp.setShaderTexture "roof"
  , RenderOp.setTextureUVScale 0.5 0.5
  , RenderOp.draw ShapeKind.cone
    -- sphere (ball)
  , RenderOp.setTransformations { x := 2.05, y := 2.05, z := 2.05 } 0 0 0 { x := 4, y := 2.2, z := 0 }
  , RenderOp.setShaderColor 0.35 0.55 0.85 1
  , RenderOp.draw ShapeKind.sphere
    -- pyramid
  , RenderOp.setTransformations { x := 4, y := 7, z := 4 } 0 25 0 { x := 9, y := 3.5, z := 0 }
  , RenderOp.setShaderColor 0.74 0.62 0.36 1
  , RenderOp.draw ShapeKind.pyramid3
    -- tapered cylinder
  , RenderOp.setTransformations { x := 1.8, y := 3.7, z := 1.8 } 0 15 0 { x := -3, y := 0.75, z := -2.25 }
  , RenderOp.setShaderColor 0.65 0.18 0.22 1
  , RenderOp.draw ShapeKind.taperedCylinder ]

/-- The mesh draw calls issued by an operation sequence, in order. -/
def drawsOf (ops : List RenderOp) : List ShapeKind :=
  ops.filterMap fun op =>
    match op with
    | RenderOp.draw k => some k
    | _ => none

/-- The material tags an operation sequence asks `SetShaderMaterial` for,
in order. -/
def materialRequests (ops : List RenderOp) : List String :=
  ops.filterMap fun op =>
    match op with
    | RenderOp.setShaderMaterial tag => some tag
    | _ => none

/-- The sink effect of one `RenderScene` statement, routed through the
facade methods (a mesh draw consumes, but does not change, sink state). -/
noncomputable def execOp (mats : List OBJECT_MATERIAL) (tex : TexState)
    (s : Sink) : RenderOp → Sink
  | RenderOp.setTransformations v xdeg ydeg zdeg p =>
      SetTransformations s (v.x : ℝ) (v.y : ℝ) (v.z : ℝ)
        (xdeg : ℝ) (ydeg : ℝ) (zdeg : ℝ) (p.x : ℝ) (p.y : ℝ) (p.z : ℝ)
  | RenderOp.setShaderColor r g b a => SetShaderColor s r g b a
  | RenderOp.setShaderTexture tag => SetShaderTexture tex s tag
  | RenderOp.setTextureUVScale u v => SetTextureUVScale s u v
  | RenderOp.setShaderMaterial tag => SetShaderMaterial mats s tag localDefault
  | RenderOp.draw _ => s

/-- The sink state at the moment the `n`-th (0-based) mesh draw call of an
operation sequence is issued, or `none` if there are fewer draws. -/
noncomputable def sinkBeforeDrawAux (mats : List OBJECT_MATERIAL) (tex : TexState) :
    Sink → Nat → List RenderOp → Option Sink
  | _, _, [] => none
  | s, n, op :: rest =>
    match op, n with
    | RenderOp.draw _, 0 => some s
    | RenderOp.draw _, Nat.succ m => sinkBeforeDrawAux mats tex (execOp mats tex s op) m rest
    | _, _ => sinkBeforeDrawAux mats tex (execOp mats tex s op) n rest

/-- The material registry after `PrepareScene` (which calls
`DefineObjectMaterials` on the initially empty `m_objectMaterials`). -/
def preparedMaterials : List OBJECT_MATERIAL := DefineObjectMaterials []

/-- A texture registry after `PrepareScene` on a run where all five image
decodes succeed (representative sizes and RGB channel counts; texture
names 1–5). -/
def preparedTexState : TexState :=
  LoadSceneTextures initialTexState
    (DecodeResult.ok 64 64 3) (DecodeResult.ok 64 64 3) (DecodeResult.ok 64 64 3)
    (DecodeResult.ok 64 64 3) (DecodeResult.ok 64 64 3) 1 2 3 4 5

/-- The sink as `PrepareScene` leaves it for `RenderScene` (lights have
been pushed by `SetupSceneLights`). -/
def renderStartSink : Sink := SetupSceneLights []

/-- The value the sink holds for uniform `key` at the moment `RenderScene`
(run in the prepared state) issues its `n`-th mesh draw call. -/
noncomputable def lookupBeforeDraw (n : Nat) (key : String) : Option UVal :=
  (sinkBeforeDrawAux preparedMaterials preparedTexState renderStartSink n renderSceneOps).bind
    fun s => lookupSink s key

/-- The texture-registry facts claimed for a fully successful
`LoadSceneTextures` run: five loaded entries, tags in insertion order, and
`FindTextureSlot` resolving the five tags to slots 0–4. -/
def texRegistryFacts (st : TexState) : Prop :=
  st.loadedTextures = 5 ∧
  (st.textureIDs.take 5).map TextureEntry.tag =
    ["wood", "ground", "eraser", "roof", "nightsky"] ∧
  FindTextureSlot st "wood" = 0 ∧
  FindTextureSlot st "ground" = 1 ∧
  FindTextureSlot st "eraser" = 2 ∧
  FindTextureSlot st "roof" = 3 ∧
  FindTextureSlot st "nightsky" = 4

/-- `findMaterialAux` leaves the caller-supplied output struct untouched
when no entry's tag matches. -/
theorem findMaterialAux_no_match (l : List OBJECT_MATERIAL) (tag : String)
    (material : OBJECT_MATERIAL) (h : ∀ m ∈ l, m.tag ≠ tag) :
    findMaterialAux l tag material = material := by
  induction l with
  | nil => rfl
  | cons m rest ih =>
    have hm : m.tag ≠ tag := h m (List.mem_cons_self m rest)
    simp only [findMaterialAux, if_neg hm]
    exact ih fun x hx => h x (List.mem_cons_of_mem m hx)

/-- `CreateGLTexture` on a successful 3- or 4-channel decode registers the
new entry at index `m_loadedTextures` and increments the counter. -/
theorem createGLTexture_success (st : TexState) (newID : Int) (w h c : Nat)
    (tag : String) (hc : c = 3 ∨ c = 4) :
    CreateGLTexture st newID (DecodeResult.ok w h c) tag =
      (true,
        { textureIDs := st.textureIDs.set st.loadedTextures { tag := tag, ID := newID },
          loadedTextures := st.loadedTextures + 1 }) := by
  rcases hc with rfl | rfl <;> simp [CreateGLTexture]

/-- `radians` of zero degrees is zero. -/
theorem radians_zero : radians 0 = 0 := by simp [radians]

/-- `glm::scale(1,1,1)` is the identity matrix. -/
theorem glmScale_one : glmScale 1 1 1 = 1 := by
  ext i j
  fin_cases i <;> fin_cases j <;>
    simp [glmScale, Matrix.one_apply, Matrix.cons_val_zero, Matrix.cons_val_one,
      Matrix.head_cons, Matrix.cons_val_two, Matrix.cons_val_three,
      Matrix.vecHead, Matrix.vecTail]

/-- A zero-angle X rotation is the identity matrix. -/
theorem glmRotateX_zero : glmRotateX 0 = 1 := by
  ext i j
  fin_cases i <;> fin_cases j <;>
    simp [glmRotateX, Matrix.one_apply, Matrix.cons_val_zero, Matrix.cons_val_one,
      Matrix.head_cons, Matrix.cons_val_two, Matrix.cons_val_three,
      Matrix.vecHead, Matrix.vecTail, Real.cos_zero, Real.sin_zero]

/-- A zero-angle Y rotation is the identity matrix. -/
theorem glmRotateY_zero : glmRotateY 0 = 1 := by
  ext i j
  fin_cases i <;> fin_cases j <;>
    simp [glmRotateY, Matrix.one_apply, Matrix.cons_val_zero, Matrix.cons_val_one,
      Matrix.head_cons, Matrix.cons_val_two, Matrix.cons_val_three,
      Matrix.vecHead, Matrix.vecTail, Real.cos_zero, Real.sin_zero]

/-- A zero-angle Z rotation is the identity matrix. -/
theorem glmRotateZ_zero : glmRotateZ 0 = 1 := by
  ext i j
  fin_cases i <;> fin_cases j <;>
    simp [glmRotateZ, Matrix.one_apply, Matrix.cons_val_zero, Matrix.cons_val_one,
      Matrix.head_cons, Matrix.cons_val_two, Matrix.cons_val_three,
      Matrix.vecHead, Matrix.vecTail, Real.cos_zero, Real.sin_zero]

/-- `glm::translate(0,0,0)` is the identity matrix. -/
theorem glmTranslate_zero : glmTranslate 0 0 0 = 1 := by
  ext i j
  fin_cases i <;> fin_cases j <;>
    simp [glmTranslate, Matrix.one_apply, Matrix.cons_val_zero, Matrix.cons_val_one,
      Matrix.head_cons, Matrix.cons_val_two, Matrix.cons_val_three,
      Matrix.vecHead, Matrix.vecTail]

/-- Claim C1 (counterexample): `RenderScene` does not issue 11 mesh draw
calls — its draw sequence has length 10, so the claimed count is false. -/
theorem renderScene_eleven_draws_false :
    decide ((drawsOf renderSceneOps).length = 11) = false ∧
    (drawsOf renderSceneOps).length = 10 := by decide

/-- Claim C1 (amended): every `Render()` invocation in the Prepared state
issues exactly 10 mesh draw calls, in the fixed order floor plane, pencil
shaft cylinder, backdrop plane, pencil tip cone, eraser cylinder, box,
roof cone, sphere, pyramid, tapered cylinder; the floor step's transform
has scale (35,1,15) and position (0,0,0); and the sphere draw is issued
with flat color (0.35,0.55,0.85,1.0) and the use-texture flag off. -/
theorem renderScene_draw_sequence :
    drawsOf renderSceneOps =
      [ShapeKind.plane, ShapeKind.cylinder, ShapeKind.plane, ShapeKind.cone,
       ShapeKind.cylinder, ShapeKind.box, ShapeKind.cone, ShapeKind.sphere,
       ShapeKind.pyramid3, ShapeKind.taperedCylinder] ∧
    (drawsOf renderSceneOps).length = 10 ∧
    renderSceneOps.head? =
      some (RenderOp.setTransformations { x := 35, y := 1, z := 15 } 0 0 0
        { x := 0, y := 0, z := 0 }) ∧
    (drawsOf renderSceneOps)[7]? = some ShapeKind.sphere ∧
    lookupBeforeDraw 7 "objectColor" = some (UVal.v4 0.35 0.55 0.85 1) ∧
    lookupBeforeDraw 7 "bUseTexture" = some (UVal.vb false) :=
  ⟨by decide, by decide, by decide, by decide, rfl, rfl⟩

/-- Claim C2 (counterexample): after `Prepare()` the Material Registry
contains no entry tagged `"glass"` — the glass material is constructed in
`DefineObjectMaterials` but never appended. -/
theorem materials_glass_entry_false :
    decide (∃ m ∈ preparedMaterials, m.tag = "glass") = false ∧
    preparedMaterials.map OBJECT_MATERIAL.tag = ["metal", "wood"] := by decide

/-- Claim C2 (amended): after `Prepare()` the Material Registry contains
exactly the entries tagged `"metal"` and `"wood"` (no `"glass"` entry is
appended), and no draw step executed by `Render()` requests the `"glass"`
material — the material tags requested are `"wood"`, `"wood"`, `"metal"`. -/
theorem materials_registry_and_requests :
    preparedMaterials.map OBJECT_MATERIAL.tag = ["metal", "wood"] ∧
    materialRequests renderSceneOps = ["wood", "wood", "metal"] ∧
    decide ("glass" ∈ materialRequests renderSceneOps) = false := by decide

/-- Claim C3 (counterexample): with the prepared (non-empty) registry and
the unmatched tag `"granite"`, `SetShaderMaterial` does write the material
uniforms — starting from an empty sink, `"material.shininess"` goes from
unset to the local struct's default value, so the uniforms are not left
unchanged. -/
theorem setShaderMaterial_unmatched_writes :
    lookupSink (SetShaderMaterial preparedMaterials [] "granite" localDefault)
      "material.shininess" = some (UVal.vf 0) ∧
    lookupSink ([] : Sink) "material.shininess" = none ∧
    (some (UVal.vf (0 : ℚ)) : Option UVal) ≠ none :=
  ⟨rfl, rfl, by simp⟩

/-- Claim C3 (amended): with an empty Material Registry `SetShaderMaterial`
forwards nothing to the sink; with a non-empty registry and no matching
tag it nevertheless forwards all three material uniforms, carrying the
untouched local struct's (default/stale) contents; no error is signalled
in either case (the function has no error channel). -/
theorem setShaderMaterial_empty_or_unmatched (mats : List OBJECT_MATERIAL)
    (tag : String) (local0 : OBJECT_MATERIAL) (s : Sink) :
    (mats = [] → SetShaderMaterial mats s tag local0 = s) ∧
    (mats ≠ [] → (∀ m ∈ mats, m.tag ≠ tag) →
      SetShaderMaterial mats s tag local0 =
        sinkSet
          (sinkSet (sinkSet s "material.diffuseColor" (uvalOfVec3 local0.diffuseColor))
            "material.specularColor" (uvalOfVec3 local0.specularColor))
          "material.shininess" (UVal.vf local0.shininess)) := by
  constructor
  · rintro rfl
    rfl
  · intro hne hmiss
    have hlen : 0 < mats.length := List.length_pos.mpr hne
    have hfm : FindMaterial mats tag local0 = (true, local0) := by
      simp [FindMaterial, Nat.pos_iff_ne_zero.mp hlen,
        findMaterialAux_no_match mats tag local0 hmiss]
    simp [SetShaderMaterial, hlen, hfm]

/-- Claim C3 (witness): the two cases of
`setShaderMaterial_empty_or_unmatched` at concrete inputs. -/
theorem setShaderMaterial_empty_or_unmatched_witness :
    (preparedMaterials ≠ [] ∧ ∀ m ∈ preparedMaterials, m.tag ≠ "granite") ∧
    SetShaderMaterial preparedMaterials [] "granite" localDefault =
      sinkSet
        (sinkSet (sinkSet [] "material.diffuseColor" (uvalOfVec3 localDefault.diffuseColor))
          "material.specularColor" (uvalOfVec3 localDefault.specularColor))
        "material.shininess" (UVal.vf localDefault.shininess) ∧
    SetShaderMaterial [] [] "granite" localDefault = [] :=
  ⟨⟨by decide, by decide⟩,
   (setShaderMaterial_empty_or_unmatched preparedMaterials "granite" localDefault []).2
     (by decide) (by decide),
   (setShaderMaterial_empty_or_unmatched [] "granite" localDefault []).1 rfl⟩

/-- Claim C4: `FindMaterial` reports `true` exactly when the registry is
non-empty — independent of whether any tag matches — and when no entry
matches, the caller's output struct keeps its prior contents. -/
theorem findMaterial_found_iff_nonempty (mats : List OBJECT_MATERIAL)
    (tag : String) (material : OBJECT_MATERIAL) :
    ((FindMaterial mats tag material).1 = true ↔ mats ≠ []) ∧
    ((∀ m ∈ mats, m.tag ≠ tag) → (FindMaterial mats tag material).2 = material) := by
  constructor
  · cases mats with
    | nil => simp [FindMaterial]
    | cons m rest => simp [FindMaterial]
  · intro hmiss
    cases mats with
    | nil => rfl
    | cons m rest =>
      simp [FindMaterial, findMaterialAux_no_match _ tag material hmiss]

/-- Claim C4 (witness): `findMaterial_found_iff_nonempty` at the prepared
registry with an unmatched tag: the lookup reports found, yet the output
struct is returned with its stale contents. -/
theorem findMaterial_found_iff_nonempty_witness :
    (∀ m ∈ preparedMaterials, m.tag ≠ "granite") ∧
    ((FindMaterial preparedMaterials "granite" localDefault).1 = true ↔
      preparedMaterials ≠ []) ∧
    (FindMaterial preparedMaterials "granite" localDefault).2 = localDefault :=
  ⟨by decide,
   (findMaterial_found_iff_nonempty preparedMaterials "granite" localDefault).1,
   (findMaterial_found_iff_nonempty preparedMaterials "granite" localDefault).2 (by decide)⟩

/-- Claim C5: assuming all five image decodes succeed with 3 or 4
channels, after `Prepare()` the Texture Registry holds exactly 5 loaded
entries tagged `"wood"`, `"ground"`, `"eraser"`, `"roof"`, `"nightsky"`
in insertion order, and `FindTextureSlot` resolves them to slots 0–4. -/
theorem loadSceneTextures_success_registry
    (w1 h1 c1 w2 h2 c2 w3 h3 c3 w4 h4 c4 w5 h5 c5 : Nat) (i1 i2 i3 i4 i5 : Int)
    (hc1 : c1 = 3 ∨ c1 = 4) (hc2 : c2 = 3 ∨ c2 = 4) (hc3 : c3 = 3 ∨ c3 = 4)
    (hc4 : c4 = 3 ∨ c4 = 4) (hc5 : c5 = 3 ∨ c5 = 4) :
    texRegistryFacts
      (LoadSceneTextures initialTexState
        (DecodeResult.ok w1 h1 c1) (DecodeResult.ok w2 h2 c2) (DecodeResult.ok w3 h3 c3)
        (DecodeResult.ok w4 h4 c4) (DecodeResult.ok w5 h5 c5) i1 i2 i3 i4 i5) := by
  rcases hc1 with rfl | rfl <;> rcases hc2 with rfl | rfl <;>
    rcases hc3 with rfl | rfl <;> rcases hc4 with rfl | rfl <;>
    rcases hc5 with rfl | rfl <;>
    exact ⟨rfl, rfl, rfl, rfl, rfl, rfl, rfl⟩

/-- Claim C5 (witness): `loadSceneTextures_success_registry` on a run where
all five decodes return 64×64 RGB images. -/
theorem loadSceneTextures_success_registry_witness :
    ((3 : Nat) = 3 ∨ (3 : Nat) = 4) ∧ texRegistryFacts preparedTexState :=
  ⟨Or.inl rfl,
   loadSceneTextures_success_registry 64 64 3 64 64 3 64 64 3 64 64 3 64 64 3
     1 2 3 4 5 (Or.inl rfl) (Or.inl rfl) (Or.inl rfl) (Or.inl rfl) (Or.inl rfl)⟩

/-- Claim C6: for all scale vectors, rotation triples in degrees, and
translation vectors, `SetTransformations` forwards to the sink (under the
uniform name `"model"`) the single combined matrix
`T · Rz · Ry · Rx · S` with each rotation angle converted from degrees to
radians; and scale (1,1,1), zero rotation, zero translation produce the
identity matrix. -/
theorem setTransformations_combined_matrix :
    (∀ (s : Sink) (sx sy sz xdeg ydeg zdeg px py pz : ℝ),
      lookupSink (SetTransformations s sx sy sz xdeg ydeg zdeg px py pz) "model" =
        some (UVal.vmat
          (glmTranslate px py pz * glmRotateZ (radians zdeg) *
            glmRotateY (radians ydeg) * glmRotateX (radians xdeg) *
            glmScale sx sy sz))) ∧
    modelMatrix 1 1 1 0 0 0 0 0 0 = 1 := by
  constructor
  · intro s sx sy sz xdeg ydeg zdeg px py pz
    rfl
  · simp only [modelMatrix, radians_zero, glmScale_one, glmRotateX_zero,
      glmRotateY_zero, glmRotateZ_zero, glmTranslate_zero, mul_one, one_mul]

/-- Claim C7: when the decode succeeds but the channel count is neither 3
nor 4, `CreateGLTexture` returns failure and consumes no registry slot:
the loaded-texture count and the whole texture table are unchanged. -/
theorem createGLTexture_bad_channels (st : TexState) (newID : Int)
    (w h c : Nat) (tag : String) (h3 : c ≠ 3) (h4 : c ≠ 4) :
    (CreateGLTexture st newID (DecodeResult.ok w h c) tag).1 = false ∧
    (CreateGLTexture st newID (DecodeResult.ok w h c) tag).2 = st := by
  simp [CreateGLTexture, h3, h4]

/-- Claim C7 (witness): `createGLTexture_bad_channels` on a 2-channel
(gray+alpha) decode against the freshly constructed registry. -/
theorem createGLTexture_bad_channels_witness :
    ((2 : Nat) ≠ 3 ∧ (2 : Nat) ≠ 4) ∧
    (CreateGLTexture initialTexState 9 (DecodeResult.ok 8 8 2) "gray").1 = false ∧
    (CreateGLTexture initialTexState 9 (DecodeResult.ok 8 8 2) "gray").2 = initialTexState :=
  ⟨⟨by decide, by decide⟩,
   createGLTexture_bad_channels initialTexState 9 8 8 2 "gray" (by decide) (by decide)⟩

/-- Whether a GL call is a `glGenTextures` allocation. -/
def isGenCall : GLCall → Bool
  | GLCall.genTextures _ => true
  | GLCall.deleteTextures _ => false

/-- Claim C8 (code bug): `DestroyGLTextures` issues one `glGenTextures`
call per loaded entry — allocating fresh texture names and overwriting the
stored handles — and never issues a `glDeleteTextures` release; on a
registry holding one entry with GPU handle 7, the stored handle is simply
replaced and handle 7 is never deleted. -/
theorem destroyGLTextures_generates_instead_of_deleting :
    (∀ (st : TexState) (fresh : Nat → Int),
      (DestroyGLTextures st fresh).2 =
        List.replicate st.loadedTextures (GLCall.genTextures 1) ∧
      (DestroyGLTextures st fresh).2.all isGenCall = true) ∧
    (DestroyGLTextures { textureIDs := [{ tag := "wood", ID := 7 }], loadedTextures := 1 }
        fun _ => 99).2 = [GLCall.genTextures 1] ∧
    (DestroyGLTextures { textureIDs := [{ tag := "wood", ID := 7 }], loadedTextures := 1 }
        fun _ => 99).1.textureIDs = [{ tag := "wood", ID := 99 }] := by
  refine ⟨fun st fresh => ?_, by decide, by decide⟩
  have htrace : (DestroyGLTextures st fresh).2 =
      List.replicate st.loadedTextures (GLCall.genTextures 1) := by
    simp [DestroyGLTextures, List.map_const']
  refine ⟨htrace, ?_⟩
  rw [htrace]
  simp [List.all_eq_true, isGenCall]

/-- Claim C9: after `SetupSceneLights`, the sink's directional-light keys
hold the second definition's values — ambient (1.08,1.08,1.08), diffuse
(2.25,2.25,2.25), specular (1.98,1.98,1.98) — and not the first
definition's (0.8/1.5/1.5) values: both blocks write the same key names,
so only the last write survives. -/
theorem setupSceneLights_last_write_wins (s : Sink) :
    lookupSink (SetupSceneLights s) "directionalLight.ambient" =
      some (UVal.v3 1.08 1.08 1.08) ∧
    lookupSink (SetupSceneLights s) "directionalLight.diffuse" =
      some (UVal.v3 2.25 2.25 2.25) ∧
    lookupSink (SetupSceneLights s) "directionalLight.specular" =
      some (UVal.v3 1.98 1.98 1.98) ∧
    UVal.v3 1.08 1.08 1.08 ≠ UVal.v3 0.8 0.8 0.8 ∧
    UVal.v3 2.25 2.25 2.25 ≠ UVal.v3 1.5 1.5 1.5 ∧
    UVal.v3 1.98 1.98 1.98 ≠ UVal.v3 1.5 1.5 1.5 :=
  ⟨rfl, rfl, rfl,
   by simp only [ne_eq, UVal.v3.injEq]; norm_num,
   by simp only [ne_eq, UVal.v3.injEq]; norm_num,
   by simp only [ne_eq, UVal.v3.injEq]; norm_num⟩

/-- Claim C10: within one `RenderScene` invocation, shading state a step
does not re-set persists from the previous step: the backdrop-plane draw
(draw index 2) is issued while the material uniforms still hold the
`"wood"` values set in earlier steps, and the eraser-cylinder draw (draw
index 4) — whose step sets only a texture and a UV scale — is issued while
they still hold the `"metal"` values set during the pencil-tip step. -/
theorem renderScene_shading_state_persists :
    (drawsOf renderSceneOps)[2]? = some ShapeKind.plane ∧
    lookupBeforeDraw 2 "material.diffuseColor" = some (UVal.v3 0.2 0.2 0.3) ∧
    lookupBeforeDraw 2 "material.specularColor" = some (UVal.v3 0 0 0) ∧
    lookupBeforeDraw 2 "material.shininess" = some (UVal.vf 0.1) ∧
    (drawsOf renderSceneOps)[4]? = some ShapeKind.cylinder ∧
    (renderSceneOps.drop 19).take 4 =
      [RenderOp.setTransformations { x := 0.3, y := 0.5, z := 0.3 } 0 0 90
         { x := 1, y := 1.5, z := 3.5 },
       RenderOp.setShaderTexture "eraser",
       RenderOp.setTextureUVScale 0.5 0.5,
       RenderOp.draw ShapeKind.cylinder] ∧
    lookupBeforeDraw 4 "material.diffuseColor" = some (UVal.v3 0.4 0.4 0.4) ∧
    lookupBeforeDraw 4 "material.specularColor" = some (UVal.v3 0.7 0.7 0.6) ∧
    lookupBeforeDraw 4 "material.shininess" = some (UVal.vf 52) :=
  ⟨by decide, rfl, rfl, rfl, by decide, rfl, rfl, rfl, rfl⟩
